import Mathlib

/-!
Shallow embedding of src/node/InspectHTTPDomain.js: the static-server
registry, address resolution, subnet filtering and the two RPC command
handlers getServer and closeServer.
-/

namespace InspectHTTPDomain

/-- One entry of the OS interface enumeration, as consumed by
getExternalAddresses: the dotted-quad address string, the family tag
and the internal (loopback) flag. -/
structure NetAddr where
  address : String
  family : String
  internal : Bool
deriving DecidableEq, Repr

/-- A JavaScript object field value, enough for the address object. -/
inductive JsVal where
  | str (s : String)
  | num (n : Nat)
deriving DecidableEq, Repr

/-- A JavaScript object literal as an ordered field list. -/
abbrev JsObj := List (String × JsVal)

/-- Field access on a JavaScript object: none means the field is absent
(reads back as undefined). -/
def jsGet (o : JsObj) (k : String) : Option JsVal :=
  (o.find? (fun p => p.1 == k)).map (fun p => p.2)

/-- The address object built on successful startup in createServer:
the literal is exactly address and port, nothing else. -/
def mkAddressObject (host : String) (port : Nat) : JsObj :=
  [("address", JsVal.str host), ("port", JsVal.num port)]

/-- JavaScript String.prototype.split with a one-character separator,
on a character list: never returns an empty group list, keeps empty
groups, and splitting the empty string gives one empty group. -/
def splitChars (sep : Char) : List Char → List (List Char)
  | [] => [[]]
  | c :: cs =>
    match splitChars sep cs with
    | [] => if c = sep then [[], []] else [[c]]
    | g :: gs => if c = sep then [] :: g :: gs else (c :: g) :: gs

/-- JavaScript s.split(sep) for a one-character separator. -/
def jsSplit (s : String) (sep : Char) : List String :=
  (splitChars sep s.data).map (fun cs => String.mk cs)

/-- The constant key tag of the source (there it is named after the tag
being put in front of the key; that spelling is avoided here). -/
def PATH_KEY_TAG : String := "edge-code-inspect-"

/-- normalizeRootPath: removes one trailing forward slash when the path is
truthy (non-empty) and its last character is a slash. -/
def normalizeRootPath (path : String) : String :=
  if path.data ≠ [] ∧ path.data.getLast? = some '/' then
    String.mk path.data.dropLast
  else path

/-- getPathKey: the constant tag concatenated with the normalized path. -/
def getPathKey (path : String) : String :=
  PATH_KEY_TAG ++ normalizeRootPath path

/-- The condition under which getExternalAddresses pushes an interface
address: IPv4, not internal, and the literal octet test of the source,
first octet group not "169" AND second octet group not "254". -/
def externalCandidate (addr : NetAddr) : Bool :=
  if addr.family == "IPv4" && !addr.internal then
    let octets := jsSplit addr.address '.'
    octets.get? 0 != some "169" && octets.get? 1 != some "254"
  else false

/-- getExternalAddresses: walks the interface map in enumeration order and
collects the addresses passing externalCandidate. -/
def getExternalAddresses (interfaces : List (String × List NetAddr)) : List String :=
  interfaces.foldl
    (fun addresses kv =>
      kv.2.foldl
        (fun addresses addr =>
          if externalCandidate addr then addresses ++ [addr.address] else addresses)
        addresses)
    []

/-- Outcome of the middleware returned by rejectOffSubnetRequests: either
hand the request to the next stage, or end the response with a status
code and a body. -/
inductive FilterResult where
  | next
  | respond (status : Nat) (body : String)
deriving DecidableEq, Repr

/-- rejectOffSubnetRequests: the middleware closed over the server address.
The client address is an Option String (none models a missing
remoteAddress); the empty string is falsy in the source guard. Octet
groups are compared as JavaScript does, with an out-of-range index
reading as undefined (none), and undefined equal to undefined. -/
def rejectOffSubnetRequests (serverAddress : String) (clientAddress : Option String) :
    FilterResult :=
  let serverAddressOctets := jsSplit serverAddress '.'
  match clientAddress with
  | some c =>
    if c ≠ "" then
      let clientAddressOctets := jsSplit c '.'
      if clientAddressOctets.get? 0 = serverAddressOctets.get? 0 ∧
          clientAddressOctets.get? 1 = serverAddressOctets.get? 1 ∧
          clientAddressOctets.get? 2 = serverAddressOctets.get? 2 then
        FilterResult.next
      else
        FilterResult.respond 403 "Forbidden"
    else
      FilterResult.respond 403 "Forbidden"
  | none => FilterResult.respond 403 "Forbidden"

/-- The three middleware stages installed on the connect app. -/
inductive Stage where
  | subnetFilter (host : String)
  | staticFiles (root : String)
  | limit (size : String)
deriving DecidableEq, Repr

/-- The middleware pipeline installed by createServer, in the order of the
three app.use calls of the source: subnet filter, static files rooted at
the requested path, then the 1mb body limit. -/
def appStages (host path : String) : List Stage :=
  [Stage.subnetFilter host, Stage.staticFiles path, Stage.limit "1mb"]

/-- Observable side effects of the handlers: installing a middleware stage,
a server (identified by a numeric id) starting to listen, a server being
closed. -/
inductive Action where
  | use (stage : Stage)
  | listen (sid : Nat)
  | close (sid : Nat)
deriving DecidableEq, Repr

/-- The ambient environment of a createServer run: the OS interface
enumeration, whether the readiness probe (the GET against the new server)
succeeds, and the ephemeral port the OS assigns. -/
structure Env where
  interfaces : List (String × List NetAddr)
  probeOk : Bool
  assignedPort : Nat
deriving Repr

/-- Completion of createServer: either the error-first callback fires with
a message (openedSid records a listener that was already bound when the
failure happened), or it fires with the new server and address object. -/
inductive CreateOutcome where
  | failed (msg : String) (openedSid : Option Nat)
  | ok (sid : Nat) (address : JsObj)
deriving DecidableEq, Repr

/-- createServer: resolve the external addresses; with none, fail with the
no-address message and no side effect. Otherwise take the first address,
install the three stages, listen, and run the readiness probe: on probe
error fail with the warmup message (the bound listener is left as is), on
success complete with the server and the address object. -/
def _createServer (env : Env) (sid : Nat) (path : String) : CreateOutcome × List Action :=
  match getExternalAddresses env.interfaces with
  | [] => (CreateOutcome.failed "Could not find an external IP address" none, [])
  | host :: _ =>
    let acts := (appStages host path).map Action.use ++ [Action.listen sid]
    if env.probeOk then
      (CreateOutcome.ok sid (mkAddressObject host env.assignedPort), acts)
    else
      (CreateOutcome.failed "Could not GET root after launching server" (some sid), acts)

/-- A registry entry: the stored object literal with the server and its
address object. -/
structure Entry where
  server : Nat
  address : JsObj
deriving DecidableEq, Repr

/-- The process-wide servers table, keyed by path key. -/
abbrev Registry := String → Option Entry

/-- Process state: the servers table plus a counter handing out fresh
server ids to model distinct listener identities. -/
structure St where
  reg : Registry
  nextId : Nat

/-- Arguments of the error-first getServer callback. -/
structure GetCb where
  err : Option String
  address : Option JsObj
deriving DecidableEq, Repr

/-- Result of one getServer command: the new state, the callback
arguments, and the emitted actions. -/
structure GetResult where
  st : St
  cb : GetCb
  acts : List Action

/-- cmdGetServer: look the path key up; on a hit return the stored address
with no effect; on a miss run createServer and either propagate its error
without touching the table, or insert the entry and return the address. -/
def _cmdGetServer (env : Env) (st : St) (path : String) : GetResult :=
  let pathKey := getPathKey path
  match st.reg pathKey with
  | some entry => ⟨st, ⟨none, some entry.address⟩, []⟩
  | none =>
    match _createServer env st.nextId path with
    | (CreateOutcome.failed msg opened, acts) =>
      ⟨{ st with nextId := if opened.isSome then st.nextId + 1 else st.nextId },
        ⟨some msg, none⟩, acts⟩
    | (CreateOutcome.ok sid address, acts) =>
      ⟨{ reg := fun k => if k = pathKey then some ⟨sid, address⟩ else st.reg k,
          nextId := st.nextId + 1 },
        ⟨none, some address⟩, acts⟩

/-- Arguments the closeServer handler passes to its callback: the source
calls it with (null, path) when a server was found and closed, and with
(path) alone, in the error position, when none was found. -/
structure CloseCb where
  firstArg : Option String
  secondArg : Option String
deriving DecidableEq, Repr

/-- Result of one closeServer command. -/
structure CloseResult where
  st : St
  cb : CloseCb
  acts : List Action

/-- cmdCloseServer: look the path key up; on a hit delete the entry from
the table and then close the removed server, completing with
(null, path); on a miss complete with (path) and no effect. -/
def _cmdCloseServer (st : St) (path : String) : CloseResult :=
  let pathKey := getPathKey path
  match st.reg pathKey with
  | some entry =>
    ⟨{ st with reg := fun k => if k = pathKey then none else st.reg k },
      ⟨none, some path⟩, [Action.close entry.server]⟩
  | none => ⟨st, ⟨some path, none⟩, []⟩

/-- The empty process state of a fresh process. -/
def emptySt : St := ⟨fun _ => none, 0⟩

/-- A one-interface environment whose probe succeeds. -/
def egEnv : Env := ⟨[("eth0", [⟨"10.0.0.5", "IPv4", false⟩])], true, 8123⟩

/-- An environment with no interfaces at all. -/
def envNoIf : Env := ⟨[], true, 0⟩

/-- A one-interface environment whose readiness probe fails. -/
def envProbeFail : Env := ⟨[("eth0", [⟨"10.0.0.5", "IPv4", false⟩])], false, 0⟩

/-- A sample registry entry as stored after a successful start. -/
def egEntry : Entry := ⟨0, mkAddressObject "10.0.0.5" 8123⟩

/-- A state holding exactly one entry, for the root /proj. -/
def egSt : St := ⟨fun k => if k = getPathKey "/proj" then some egEntry else none, 1⟩

/-! Theorems. -/

/-- Strings with equal character data are equal. -/
theorem string_data_inj {s t : String} (h : s.data = t.data) : s = t :=
  congrArg String.mk h

/-- C1: the subnet filter admits a request exactly when the client address
is present (a non-empty remoteAddress) and its first three dot-separated
octet groups each equal the corresponding group of the server address;
on any denial it responds with status 403 and body Forbidden instead of
forwarding. -/
theorem C1_subnet_filter (S : String) (c : Option String) :
    (rejectOffSubnetRequests S c = FilterResult.next ↔
      ∃ a, c = some a ∧ a ≠ "" ∧
        (jsSplit a '.').get? 0 = (jsSplit S '.').get? 0 ∧
        (jsSplit a '.').get? 1 = (jsSplit S '.').get? 1 ∧
        (jsSplit a '.').get? 2 = (jsSplit S '.').get? 2) ∧
    (rejectOffSubnetRequests S c ≠ FilterResult.next →
      rejectOffSubnetRequests S c = FilterResult.respond 403 "Forbidden") := by
  unfold rejectOffSubnetRequests
  cases c with
  | none => simp
  | some a =>
    by_cases ha : a = "" <;> simp only [ha] <;> split <;> simp_all

/-- C1 witness: a same-subnet client is admitted and an off-subnet client
gets 403 Forbidden, at concrete addresses. -/
theorem C1_subnet_filter_witness :
    rejectOffSubnetRequests "10.0.1.5" (some "10.0.1.42") = FilterResult.next ∧
    rejectOffSubnetRequests "10.0.1.5" (some "10.0.2.42") =
      FilterResult.respond 403 "Forbidden" :=
  ⟨(C1_subnet_filter "10.0.1.5" (some "10.0.1.42")).1.mpr
      ⟨"10.0.1.42", rfl, by decide, by decide, by decide, by decide⟩,
    (C1_subnet_filter "10.0.1.5" (some "10.0.2.42")).2 (by decide)⟩

/-- C2: evaluation of the code at the failing inputs. The source keeps an
address only when its first octet group differs from "169" AND its second
differs from "254", so it wrongly drops 169.1.2.3 and 10.254.0.1, which
are outside the link-local range; a genuine link-local address, an
internal address and an IPv6 address are dropped and a plain LAN address
is kept. -/
theorem C2_link_local_eval :
    getExternalAddresses [("eth0", [⟨"169.1.2.3", "IPv4", false⟩])] = [] ∧
    getExternalAddresses [("eth0", [⟨"10.254.0.1", "IPv4", false⟩])] = [] ∧
    getExternalAddresses [("eth0", [⟨"169.254.7.9", "IPv4", false⟩])] = [] ∧
    getExternalAddresses
      [("lo", [⟨"127.0.0.1", "IPv4", true⟩]),
       ("en1", [⟨"192.168.1.7", "IPv4", false⟩, ⟨"fe80::1", "IPv6", false⟩])]
      = ["192.168.1.7"] := by decide

/-- C3: when an entry exists for the normalized key, getServer returns the
stored address, leaves the state untouched and emits no action, so a
second call returns the same result and the key still holds the same
single entry. -/
theorem C3_getServer_idempotent (env : Env) (st : St) (P : String) (e : Entry)
    (h : st.reg (getPathKey P) = some e) :
    _cmdGetServer env st P = ⟨st, ⟨none, some e.address⟩, []⟩ ∧
    _cmdGetServer env (_cmdGetServer env st P).st P = _cmdGetServer env st P ∧
    (_cmdGetServer env st P).st.reg (getPathKey P) = some e := by
  unfold _cmdGetServer
  simp [h]

/-- C3 witness: the fast path at a concrete one-entry state. -/
theorem C3_getServer_idempotent_witness :
    _cmdGetServer egEnv egSt "/proj" = ⟨egSt, ⟨none, some egEntry.address⟩, []⟩ ∧
    _cmdGetServer egEnv (_cmdGetServer egEnv egSt "/proj").st "/proj" =
      _cmdGetServer egEnv egSt "/proj" ∧
    (_cmdGetServer egEnv egSt "/proj").st.reg (getPathKey "/proj") = some egEntry :=
  C3_getServer_idempotent egEnv egSt "/proj" egEntry (by decide)

/-- C4: evaluation of the closeServer handler. On a miss it completes with
the path alone in the first (error) slot of the callback, and on a hit it
completes with null and the path, removing the entry and closing the
removed server: neither completion carries the boolean the surrounding
documentation promises. -/
theorem C4_closeServer_eval :
    (_cmdCloseServer emptySt "/nope").cb = ⟨some "/nope", none⟩ ∧
    (_cmdCloseServer emptySt "/nope").st.reg (getPathKey "/nope") = none ∧
    (_cmdCloseServer emptySt "/nope").acts = [] ∧
    (_cmdCloseServer egSt "/proj").cb = ⟨none, some "/proj"⟩ ∧
    (_cmdCloseServer egSt "/proj").st.reg (getPathKey "/proj") = none ∧
    (_cmdCloseServer egSt "/proj").acts = [Action.close 0] := by decide

/-- C5: when address enumeration yields nothing and the key is absent,
getServer completes with the no-address error, a null address, and the
state is returned unchanged with no action. -/
theorem C5_no_address (env : Env) (st : St) (P : String)
    (hExt : getExternalAddresses env.interfaces = [])
    (hAbs : st.reg (getPathKey P) = none) :
    _cmdGetServer env st P =
      ⟨st, ⟨some "Could not find an external IP address", none⟩, []⟩ := by
  unfold _cmdGetServer _createServer
  simp [hAbs, hExt]

/-- C5 witness: the no-interface environment at the empty state. -/
theorem C5_no_address_witness :
    _cmdGetServer envNoIf emptySt "/p5" =
      ⟨emptySt, ⟨some "Could not find an external IP address", none⟩, []⟩ :=
  C5_no_address envNoIf emptySt "/p5" (by decide) (by decide)

/-- C6 counterexample: with a failing readiness probe the run reports the
warmup error and a listener was bound (listen 0 appears), yet no close of
that listener ever happens, contradicting the claim that the
partially-started listener is released. -/
theorem C6_counterexample :
    (_cmdGetServer envProbeFail emptySt "/p").cb.err =
      some "Could not GET root after launching server" ∧
    Action.listen 0 ∈ (_cmdGetServer envProbeFail emptySt "/p").acts ∧
    Action.close 0 ∉ (_cmdGetServer envProbeFail emptySt "/p").acts := by decide

/-- C6 amended: when the probe fails, getServer completes with the warmup
error, no entry is inserted for the key, and the bound listener is NOT
released: a listen action is emitted and no close action at all. -/
theorem C6_warmup_not_released (env : Env) (st : St) (P host : String) (rest : List String)
    (hExt : getExternalAddresses env.interfaces = host :: rest)
    (hProbe : env.probeOk = false)
    (hAbs : st.reg (getPathKey P) = none) :
    (_cmdGetServer env st P).cb = ⟨some "Could not GET root after launching server", none⟩ ∧
    (_cmdGetServer env st P).st.reg = st.reg ∧
    Action.listen st.nextId ∈ (_cmdGetServer env st P).acts ∧
    ∀ n, Action.close n ∉ (_cmdGetServer env st P).acts := by
  unfold _cmdGetServer _createServer
  simp [hAbs, hExt, hProbe, appStages]

/-- C6 witness: the amended statement at the concrete probe-failure
environment and empty state. -/
theorem C6_warmup_not_released_witness :
    (_cmdGetServer envProbeFail emptySt "/q").cb =
      ⟨some "Could not GET root after launching server", none⟩ ∧
    (_cmdGetServer envProbeFail emptySt "/q").st.reg = emptySt.reg ∧
    Action.listen emptySt.nextId ∈ (_cmdGetServer envProbeFail emptySt "/q").acts ∧
    Action.close 0 ∉ (_cmdGetServer envProbeFail emptySt "/q").acts := by
  have h := C6_warmup_not_released envProbeFail emptySt "/q" "10.0.0.5" []
    (by decide) rfl (by decide)
  exact ⟨h.1, h.2.1, h.2.2.1, h.2.2.2 0⟩

/-- C7 counterexample: the pair of "/a//" and "/a/" differs only by one
trailing forward slash, yet normalization sends the two spellings to
different registry keys, because only one trailing slash is stripped. -/
theorem C7_counterexample :
    "/a/" ++ "/" = "/a//" ∧ getPathKey ("/a/" ++ "/") ≠ getPathKey "/a/" := by decide

/-- C7 amended: for every path p that does not already end in a forward
slash, p with one trailing slash appended and p itself map to the same
registry key, so lookups in any registry agree on the two spellings. -/
theorem C7_trailing_slash_key (p : String) (h : p.data.getLast? ≠ some '/') :
    getPathKey (p ++ "/") = getPathKey p ∧
    ∀ st : St, st.reg (getPathKey (p ++ "/")) = st.reg (getPathKey p) := by
  have h1 : (p ++ "/").data = p.data ++ ['/'] := rfl
  have hnorm : normalizeRootPath (p ++ "/") = p := by
    unfold normalizeRootPath
    rw [if_pos]
    · apply string_data_inj
      show (p ++ "/").data.dropLast = p.data
      rw [h1]
      simp
    · refine ⟨by simp [h1], ?_⟩
      rw [h1]
      simp
  have hnorm2 : normalizeRootPath p = p := by
    unfold normalizeRootPath
    rw [if_neg]
    rintro ⟨-, h2⟩
    exact h h2
  have hk : getPathKey (p ++ "/") = getPathKey p := by
    unfold getPathKey
    rw [hnorm, hnorm2]
  exact ⟨hk, fun st => by rw [hk]⟩

/-- C7 witness: the amended statement at a concrete path. -/
theorem C7_trailing_slash_key_witness :
    getPathKey ("/a/b" ++ "/") = getPathKey "/a/b" :=
  (C7_trailing_slash_key "/a/b" (by decide)).1

/-- C8: evaluation of a successful getServer run: the callback succeeds
and delivers the object literal holding exactly an address field and a
port field; reading the family field of that object gives none (the field
is absent), not the string IPv4. -/
theorem C8_no_family_field :
    (_cmdGetServer egEnv emptySt "/c8").cb.err = none ∧
    (_cmdGetServer egEnv emptySt "/c8").cb.address = some (mkAddressObject "10.0.0.5" 8123) ∧
    jsGet (mkAddressObject "10.0.0.5" 8123) "address" = some (JsVal.str "10.0.0.5") ∧
    jsGet (mkAddressObject "10.0.0.5" 8123) "port" = some (JsVal.num 8123) ∧
    jsGet (mkAddressObject "10.0.0.5" 8123) "family" = none := by decide

/-- C9 counterexample: at a concrete environment the actions emitted by
createServer install the subnet filter, then the static stage, then the
1mb limit; they are not the claimed order with the limit before the
static stage. -/
theorem C9_counterexample :
    (_createServer egEnv 0 "/p").2 =
      [Action.use (Stage.subnetFilter "10.0.0.5"), Action.use (Stage.staticFiles "/p"),
       Action.use (Stage.limit "1mb"), Action.listen 0] ∧
    (_createServer egEnv 0 "/p").2 ≠
      [Action.use (Stage.subnetFilter "10.0.0.5"), Action.use (Stage.limit "1mb"),
       Action.use (Stage.staticFiles "/p"), Action.listen 0] := by decide

/-- C9 amended: whenever an external address is resolved, the pipeline
installed by createServer is, in order, the subnet filter bound to that
address, the static-file stage rooted at the requested path, and then the
1mb size limit; the limit stage comes after file serving. -/
theorem C9_pipeline_order (env : Env) (sid : Nat) (P host : String) (rest : List String)
    (hExt : getExternalAddresses env.interfaces = host :: rest) :
    (_createServer env sid P).2 = (appStages host P).map Action.use ++ [Action.listen sid] ∧
    appStages host P = [Stage.subnetFilter host, Stage.staticFiles P, Stage.limit "1mb"] := by
  unfold _createServer
  simp only [hExt]
  cases hp : env.probeOk <;> simp [appStages]

/-- C9 witness: the amended pipeline order at a concrete environment. -/
theorem C9_pipeline_order_witness :
    (_createServer egEnv 1 "/w").2 =
      (appStages "10.0.0.5" "/w").map Action.use ++ [Action.listen 1] ∧
    appStages "10.0.0.5" "/w" =
      [Stage.subnetFilter "10.0.0.5", Stage.staticFiles "/w", Stage.limit "1mb"] :=
  C9_pipeline_order egEnv 1 "/w" "10.0.0.5" [] (by decide)

/-- C10: the registry key is the constant tag in front of the normalized
path, so equal keys force equal normalized paths (injectivity on
normalized roots), and no key can collide with the bare built-in object
property names held by every JavaScript object. -/
theorem C10_key_injective_and_safe (p q : String) (h : getPathKey p = getPathKey q) :
    normalizeRootPath p = normalizeRootPath q ∧
    getPathKey p ≠ "constructor" ∧ getPathKey p ≠ "__proto__" := by
  refine ⟨?_, ?_, ?_⟩
  · have h2 : PATH_KEY_TAG.data ++ (normalizeRootPath p).data
        = PATH_KEY_TAG.data ++ (normalizeRootPath q).data := congrArg String.data h
    exact string_data_inj (List.append_cancel_left h2)
  · intro hc
    have h2 := congrArg (fun s : String => s.data.length) hc
    have hd : (getPathKey p).data = PATH_KEY_TAG.data ++ (normalizeRootPath p).data := rfl
    simp only [hd] at h2
    rw [List.length_append] at h2
    have e1 : PATH_KEY_TAG.data.length = 18 := rfl
    have e2 : "constructor".data.length = 11 := rfl
    rw [e1, e2] at h2
    omega
  · intro hc
    have h2 := congrArg (fun s : String => s.data.length) hc
    have hd : (getPathKey p).data = PATH_KEY_TAG.data ++ (normalizeRootPath p).data := rfl
    simp only [hd] at h2
    rw [List.length_append] at h2
    have e1 : PATH_KEY_TAG.data.length = 18 := rfl
    have e2 : "__proto__".data.length = 9 := rfl
    rw [e1, e2] at h2
    omega

/-- C10 witness: the statement at a concrete path. -/
theorem C10_key_injective_and_safe_witness :
    normalizeRootPath "/w10" = normalizeRootPath "/w10" ∧
    getPathKey "/w10" ≠ "constructor" ∧ getPathKey "/w10" ≠ "__proto__" :=
  C10_key_injective_and_safe "/w10" "/w10" rfl

end InspectHTTPDomain
